import Mathlib

/-!
Verification of the resource-registry and per-draw state pipeline of
SceneManager.cpp (CS-330 scene renderer).

The C++ source is shallowly embedded: member state (texture registry,
material registry, shader pointer) is passed explicitly, GL calls are
modelled by a small GL-context state, and shader uniform stores are
modelled as an emitted list of uniform writes.  Scalars that are `float`
in the source are modelled as exact rationals; the trigonometric
functions and the degree-to-radian constant used by the transform
composer are abstract function parameters, so that only the structure of
the computation (which is what the specification constrains) is fixed.
-/

namespace SceneMgr

/-- Three-component vector (glm::vec3), with exact rational scalars. -/
structure Vec3 where
  x : ℚ
  y : ℚ
  z : ℚ
deriving DecidableEq, Repr

/-- Material record, from SceneManager.h usage in SceneManager.cpp:
fields diffuseColor, specularColor, shininess, tag (OBJECT_MATERIAL). -/
structure OBJECT_MATERIAL where
  diffuseColor : Vec3
  specularColor : Vec3
  shininess : ℚ
  tag : String
deriving DecidableEq, Repr

/-- Texture registry entry: a GPU texture handle and its tag.  The struct
itself is declared in the (absent) header; its two fields are exactly the
ones SceneManager.cpp reads and writes (m_textureIDs[i].ID and
m_textureIDs[i].tag).  The GL handle is an opaque name, modelled as a
natural number. -/
structure TEXTURE_ID where
  ID : Nat
  tag : String
deriving DecidableEq, Repr

/-- Loop body of SceneManager::FindMaterial (SceneManager.cpp lines
238-253): linear scan, first match copies diffuseColor, specularColor and
shininess (not the tag) into the by-reference out-parameter and stops. -/
def findMaterialLoop (entries : List OBJECT_MATERIAL) (tag : String)
    (material : OBJECT_MATERIAL) : Bool × OBJECT_MATERIAL :=
  match entries with
  | [] => (false, material)
  | e :: rest =>
    if e.tag = tag then
      (true, { material with
                diffuseColor := e.diffuseColor,
                specularColor := e.specularColor,
                shininess := e.shininess })
    else
      findMaterialLoop rest tag material

/-- SceneManager::FindMaterial (SceneManager.cpp lines 231-256).  On an
empty registry it returns false at once.  Otherwise it runs the scan and
then returns true unconditionally (line 255 is return(true), not
return(bFound)): the scan result bFound is discarded, so a missing tag in
a non-empty registry still reports success, with the out-parameter left
untouched. -/
def findMaterial (m_objectMaterials : List OBJECT_MATERIAL) (tag : String)
    (material : OBJECT_MATERIAL) : Bool × OBJECT_MATERIAL :=
  if m_objectMaterials.length = 0 then
    (false, material)
  else
    let scanned := findMaterialLoop m_objectMaterials tag material
    (true, scanned.2)

/-- SceneManager::FindTextureID (SceneManager.cpp lines 179-197): linear
scan over the first m_loadedTextures entries, first tag match returns the
stored handle, otherwise -1. -/
def findTextureID (m_textureIDs : List TEXTURE_ID) (tag : String) : Int :=
  match m_textureIDs with
  | [] => -1
  | e :: rest => if e.tag = tag then (e.ID : Int) else findTextureID rest tag

/-- Loop of SceneManager::FindTextureSlot (SceneManager.cpp lines
211-220), with the running index made explicit: first tag match returns
the current index. -/
def findTextureSlotAux (m_textureIDs : List TEXTURE_ID) (tag : String)
    (index : Nat) : Int :=
  match m_textureIDs with
  | [] => -1
  | e :: rest =>
    if e.tag = tag then (index : Int) else findTextureSlotAux rest tag (index + 1)

/-- SceneManager::FindTextureSlot (SceneManager.cpp lines 205-223):
linear scan from index 0, first match returns its slot index, -1 when the
tag is absent. -/
def findTextureSlot (m_textureIDs : List TEXTURE_ID) (tag : String) : Int :=
  findTextureSlotAux m_textureIDs tag 0

/-- Minimal model of the GL texture-object state visible to this file:
glGenTextures draws a fresh name from a counter and the name stays live
until glDeleteTextures removes it.  SceneManager.cpp never calls
glDeleteTextures. -/
structure GLContext where
  nextTextureName : Nat
  liveTextures : List Nat
deriving DecidableEq, Repr

/-- Effect of glGenTextures(1, &id): returns a fresh live name. -/
def glGenTexture (gl : GLContext) : Nat × GLContext :=
  (gl.nextTextureName,
   { nextTextureName := gl.nextTextureName + 1,
     liveTextures := gl.liveTextures ++ [gl.nextTextureName] })

/-- Result of stbi_load as seen by CreateGLTexture: width, height and
channel count of a successfully decoded image. -/
structure ImageData where
  width : Int
  height : Int
  colorChannels : Int
deriving DecidableEq, Repr

/-- SceneManager::CreateGLTexture (SceneManager.cpp lines 77-141).  The
decode result is the input (none models a failed stbi_load).  On decode
success the code first generates a GL texture name (line 100), then
branches on the channel count: 3 and 4 upload and register the texture at
index m_loadedTextures (lines 130-132, an append in this list model of
the 16-entry array); any other count returns false at line 119 before the
registration, leaving the registry untouched (the generated GL name is
left behind in the GL context, as in the source).  Returns (success,
GL context, registry). -/
def createGLTexture (gl : GLContext) (m_textureIDs : List TEXTURE_ID)
    (decoded : Option ImageData) (tag : String) :
    Bool × GLContext × List TEXTURE_ID :=
  match decoded with
  | none => (false, gl, m_textureIDs)
  | some image =>
    let gen := glGenTexture gl
    let textureID := gen.1
    let gl1 := gen.2
    if image.colorChannels = 3 ∨ image.colorChannels = 4 then
      (true, gl1, m_textureIDs ++ [{ ID := textureID, tag := tag }])
    else
      (false, gl1, m_textureIDs)

/-- SceneManager::DestroyGLTextures (SceneManager.cpp lines 165-171).
The loop body is glGenTextures(1, &m_textureIDs[i].ID): it generates a
brand-new texture name and stores it over the registry entry.  No delete
call is issued, so every previously stored handle stays live. -/
def destroyGLTextures (gl : GLContext) (m_textureIDs : List TEXTURE_ID) :
    GLContext × List TEXTURE_ID :=
  match m_textureIDs with
  | [] => (gl, [])
  | e :: rest =>
    let gen := glGenTexture gl
    let done := destroyGLTextures gen.2 rest
    (done.1, { e with ID := gen.1 } :: done.2)

/-- Global uniform-name constant g_ModelName (SceneManager.cpp line 39). -/
def g_ModelName : String := "model"

/-- Global uniform-name constant g_ColorValueName (line 40). -/
def g_ColorValueName : String := "objectColor"

/-- Global uniform-name constant g_TextureValueName (line 41). -/
def g_TextureValueName : String := "objectTexture"

/-- Global uniform-name constant g_UseTextureName (line 42). -/
def g_UseTextureName : String := "bUseTexture"

/-- One shader uniform store, as issued through the ShaderManager
setters.  The 4x4 model matrix is over exact rationals, see the
transform-composer section below. -/
inductive UniformWrite where
  | mat4Val (uniformName : String) (value : Matrix (Fin 4) (Fin 4) ℚ)
  | vec4Val (uniformName : String) (r g b a : ℚ)
  | vec3Val (uniformName : String) (value : Vec3)
  | vec2Val (uniformName : String) (u v : ℚ)
  | intVal (uniformName : String) (value : Int)
  | floatVal (uniformName : String) (value : ℚ)
  | sampler2DVal (uniformName : String) (value : Int)

/-- SceneManager::SetShaderColor (SceneManager.cpp lines 302-321): when a
shader is attached, stores bUseTexture := false (an int uniform, so 0)
and the RGBA color; with no shader attached it does nothing. -/
def setShaderColor (shaderAttached : Bool)
    (redColorValue greenColorValue blueColorValue alphaValue : ℚ) :
    List UniformWrite :=
  if shaderAttached then
    [UniformWrite.intVal g_UseTextureName 0,
     UniformWrite.vec4Val g_ColorValueName
       redColorValue greenColorValue blueColorValue alphaValue]
  else
    []

/-- SceneManager::SetShaderTexture (SceneManager.cpp lines 329-340): when
a shader is attached, stores bUseTexture := true (int 1) and the slot
resolved by FindTextureSlot (which is -1 for an unknown tag) as the
sampler index; with no shader attached it does nothing. -/
def setShaderTexture (shaderAttached : Bool) (m_textureIDs : List TEXTURE_ID)
    (textureTag : String) : List UniformWrite :=
  if shaderAttached then
    [UniformWrite.intVal g_UseTextureName 1,
     UniformWrite.sampler2DVal g_TextureValueName
       (findTextureSlot m_textureIDs textureTag)]
  else
    []

/-- SceneManager::SetTextureUVScale (SceneManager.cpp lines 348-354). -/
def setTextureUVScale (shaderAttached : Bool) (u v : ℚ) : List UniformWrite :=
  if shaderAttached then
    [UniformWrite.vec2Val "UVscale" u v]
  else
    []

/-- SceneManager::SetShaderMaterial (SceneManager.cpp lines 362-378).
The local variable OBJECT_MATERIAL material is default-constructed and
its numeric fields are indeterminate; it is modelled as the explicit
argument localMaterial.  When the registry is non-empty, FindMaterial is
consulted and, whenever it reports success, the three material uniforms
are stored from the (possibly never-assigned) local. -/
def setShaderMaterial (m_objectMaterials : List OBJECT_MATERIAL)
    (materialTag : String) (localMaterial : OBJECT_MATERIAL) :
    List UniformWrite :=
  if m_objectMaterials.length > 0 then
    let found := findMaterial m_objectMaterials materialTag localMaterial
    if found.1 = true then
      [UniformWrite.vec3Val "material.diffuseColor" found.2.diffuseColor,
       UniformWrite.vec3Val "material.specularColor" found.2.specularColor,
       UniformWrite.floatVal "material.shininess" found.2.shininess]
    else
      []
  else
    []

/-- Four-by-four model matrix over exact rationals, in mathematical
row-index/column-index convention (glm stores columns, but its
operator* is ordinary matrix multiplication, which is what matters
here). -/
abbrev Mat4 : Type := Matrix (Fin 4) (Fin 4) ℚ

/-- The unit x axis passed to glm::rotate at SceneManager.cpp line 282. -/
def axisX : Vec3 := { x := 1, y := 0, z := 0 }

/-- The unit y axis passed to glm::rotate at SceneManager.cpp line 283. -/
def axisY : Vec3 := { x := 0, y := 1, z := 0 }

/-- The unit z axis passed to glm::rotate at SceneManager.cpp line 284. -/
def axisZ : Vec3 := { x := 0, y := 0, z := 1 }

/-- The glm::scale(v) matrix: diagonal (v.x, v.y, v.z, 1). -/
def glmScale (v : Vec3) : Mat4 :=
  !![v.x, 0, 0, 0;
     0, v.y, 0, 0;
     0, 0, v.z, 0;
     0, 0, 0, 1]

/-- The glm::translate(v) matrix: identity with v in the last column. -/
def glmTranslate (v : Vec3) : Mat4 :=
  !![1, 0, 0, v.x;
     0, 1, 0, v.y;
     0, 0, 1, v.z;
     0, 0, 0, 1]

/-- The glm::rotate(angle, axis) matrix (Rodrigues form,
c*I + (1-c)*a*aT + s*[a]x in the upper 3x3), with the cosine and sine
supplied as abstract functions cosF and sinF standing for the float
library routines.  glm normalizes the axis first; the three axes the
source passes are already unit vectors, for which normalization is the
identity, so the axis is used as given. -/
def glmRotate (cosF sinF : ℚ → ℚ) (angle : ℚ) (axis : Vec3) : Mat4 :=
  let c := cosF angle
  let s := sinF angle
  !![c + (1 - c) * axis.x * axis.x,
     (1 - c) * axis.x * axis.y - s * axis.z,
     (1 - c) * axis.x * axis.z + s * axis.y, 0;
     (1 - c) * axis.y * axis.x + s * axis.z,
     c + (1 - c) * axis.y * axis.y,
     (1 - c) * axis.y * axis.z - s * axis.x, 0;
     (1 - c) * axis.z * axis.x - s * axis.y,
     (1 - c) * axis.z * axis.y + s * axis.x,
     c + (1 - c) * axis.z * axis.z, 0;
     0, 0, 0, 1]

/-- SceneManager::SetTransformations (SceneManager.cpp lines 264-294).
degToRad stands for glm::radians (multiplication by the float constant
pi/180); cosF and sinF stand for the float cosine and sine.  The code
builds scale, the three axis rotations from the degree angles converted
to radians, and translation, composes
translation * rotationZ * rotationY * rotationX * scale, and, when a
shader is attached, stores it to the model-matrix uniform; that store is
the only effect. -/
def setTransformations (degToRad cosF sinF : ℚ → ℚ) (shaderAttached : Bool)
    (scaleXYZ : Vec3)
    (XrotationDegrees YrotationDegrees ZrotationDegrees : ℚ)
    (positionXYZ : Vec3) : List UniformWrite :=
  let scale := glmScale scaleXYZ
  let rotationX := glmRotate cosF sinF (degToRad XrotationDegrees) axisX
  let rotationY := glmRotate cosF sinF (degToRad YrotationDegrees) axisY
  let rotationZ := glmRotate cosF sinF (degToRad ZrotationDegrees) axisZ
  let translation := glmTranslate positionXYZ
  let modelView := translation * rotationZ * rotationY * rotationX * scale
  if shaderAttached then
    [UniformWrite.mat4Val g_ModelName modelView]
  else
    []

/-- Modelled from the specification, section 4.4: the Transform Composer
is "Compose(scale, rotationXYZ_degrees, translation) -> 4x4 matrix",
built as T * Rz * Ry * Rx * S, translation outermost, Z-then-Y-then-X
rotation, scale innermost, with each degree angle converted to radians
before its rotation matrix is built.  Written independently of
setTransformations, to be compared with it. -/
def composeSpec (degToRad cosF sinF : ℚ → ℚ) (scale : Vec3)
    (rxDegrees ryDegrees rzDegrees : ℚ) (translation : Vec3) : Mat4 :=
  glmTranslate translation *
    glmRotate cosF sinF (degToRad rzDegrees) axisZ *
    glmRotate cosF sinF (degToRad ryDegrees) axisY *
    glmRotate cosF sinF (degToRad rxDegrees) axisX *
    glmScale scale

/-- One call made by SceneManager::RenderScene, in program order: a
SetTransformations, SetShaderColor, SetShaderTexture or
SetShaderMaterial state push, or a mesh draw (the shape name records
which ShapeMeshes draw method is invoked). -/
inductive REvent where
  | transformEv (scaleXYZ : Vec3) (xr yr zr : ℚ) (positionXYZ : Vec3)
  | colorEv (r g b a : ℚ)
  | textureEv (tag : String)
  | materialEv (tag : String)
  | drawEv (mesh : String)
deriving DecidableEq, Repr

/-- The exact sequence of state pushes and draw calls issued by
SceneManager::RenderScene (SceneManager.cpp lines 644-1613), one object
after another: floor, two walls, four leaves and the leaf base, the
vase, the ottoman, two pillows, the eight bookshelf boards, the picture,
the rug, the lamp shade, lamp pole and lamp base, six books, and the
snow-globe bottom and top.  Commented-out SetShaderColor lines in the
source are not events; the lamp-shade object is the one place where a
live SetShaderColor and a SetShaderTexture are both issued. -/
def renderSceneTrace : List REvent := [
  REvent.transformEv ⟨20, 1, 20⟩ 0 0 0 ⟨0, 0, 0⟩,
  REvent.textureEv "floor",
  REvent.materialEv "wood",
  REvent.drawEv "plane",
  REvent.transformEv ⟨20, 1, 20⟩ 90 90 0 ⟨20, 20, 0⟩,
  REvent.textureEv "wall",
  REvent.materialEv "wall",
  REvent.drawEv "plane",
  REvent.transformEv ⟨20, 1, 20⟩ 90 0 90 ⟨0, 20, -20⟩,
  REvent.textureEv "wall",
  REvent.materialEv "wall",
  REvent.drawEv "plane",
  REvent.transformEv ⟨0.5, 1.5, 0.5⟩ 45 (-90) 0 ⟨-0.5, 3, 0⟩,
  REvent.textureEv "leaf",
  REvent.materialEv "leaf",
  REvent.drawEv "pyramid4",
  REvent.transformEv ⟨0.5, 1.5, 0.5⟩ (-45) 0 0 ⟨0, 3, -0.5⟩,
  REvent.textureEv "leaf",
  REvent.materialEv "leaf",
  REvent.drawEv "pyramid4",
  REvent.transformEv ⟨0.5, 1.5, 0.5⟩ 45 0 0 ⟨0, 3, 0.5⟩,
  REvent.textureEv "leaf",
  REvent.materialEv "leaf",
  REvent.drawEv "pyramid4",
  REvent.transformEv ⟨0.5, 1.5, 0.5⟩ (-45) (-90) 0 ⟨0.5, 3, 0⟩,
  REvent.textureEv "leaf",
  REvent.materialEv "leaf",
  REvent.drawEv "pyramid4",
  REvent.transformEv ⟨0.5, 1.5, 0.5⟩ 0 0 0 ⟨0, 3.2, 0⟩,
  REvent.textureEv "leaf",
  REvent.materialEv "leaf",
  REvent.drawEv "pyramid4",
  REvent.transformEv ⟨1, 1.5, 1⟩ 180 0 0 ⟨0, 2.4, 0⟩,
  REvent.textureEv "vase",
  REvent.materialEv "vase",
  REvent.drawEv "taperedCylinder",
  REvent.transformEv ⟨6, 5, 6⟩ 0 0 0 ⟨14, 0, 5⟩,
  REvent.textureEv "ottoman",
  REvent.materialEv "fabric",
  REvent.drawEv "cylinder",
  REvent.transformEv ⟨5, 1, 5⟩ (-75) 120 0 ⟨16, 7.5, 3⟩,
  REvent.textureEv "pillow",
  REvent.materialEv "fabric",
  REvent.drawEv "box",
  REvent.transformEv ⟨5, 1, 5⟩ 90 90 (-20) ⟨18, 7.5, 6⟩,
  REvent.textureEv "pillow",
  REvent.materialEv "fabric",
  REvent.drawEv "box",
  REvent.transformEv ⟨15, 0.5, 20⟩ 90 0 0 ⟨10.8, 10, -20⟩,
  REvent.textureEv "bookshelf",
  REvent.materialEv "wood",
  REvent.drawEv "box",
  REvent.transformEv ⟨7, 0.5, 15⟩ 0 90 0 ⟨10.8, 10, -18⟩,
  REvent.textureEv "bookshelf",
  REvent.materialEv "wood",
  REvent.drawEv "box",
  REvent.transformEv ⟨7, 0.5, 15⟩ 0 90 0 ⟨10.8, 15, -18⟩,
  REvent.textureEv "bookshelf",
  REvent.materialEv "wood",
  REvent.drawEv "box",
  REvent.transformEv ⟨7, 0.5, 15⟩ 0 90 0 ⟨10.8, 5, -18⟩,
  REvent.textureEv "bookshelf",
  REvent.materialEv "wood",
  REvent.drawEv "box",
  REvent.transformEv ⟨7, 0.5, 15⟩ 0 90 0 ⟨10.8, 20, -18⟩,
  REvent.textureEv "bookshelf",
  REvent.materialEv "wood",
  REvent.drawEv "box",
  REvent.transformEv ⟨7, 0.5, 15⟩ 0 90 0 ⟨10.8, 0, -18⟩,
  REvent.textureEv "bookshelf",
  REvent.materialEv "wood",
  REvent.drawEv "box",
  REvent.transformEv ⟨7, 0.5, 20⟩ 90 90 0 ⟨3.4, 10, -18⟩,
  REvent.textureEv "bookshelf",
  REvent.materialEv "wood",
  REvent.drawEv "box",
  REvent.transformEv ⟨7, 0.5, 20⟩ 90 90 0 ⟨18.4, 10, -18⟩,
  REvent.textureEv "bookshelf",
  REvent.materialEv "wood",
  REvent.drawEv "box",
  REvent.transformEv ⟨8, 0.5, 11⟩ 90 90 0 ⟨19.8, 20, 0⟩,
  REvent.textureEv "picture",
  REvent.materialEv "paper",
  REvent.drawEv "box",
  REvent.transformEv ⟨10, 0.3, 15⟩ 0 0 0 ⟨0, 0, 0⟩,
  REvent.textureEv "rug",
  REvent.materialEv "fabric",
  REvent.drawEv "box",
  REvent.transformEv ⟨2, 3.5, 2⟩ 0 0 0 ⟨-2, 13, -17⟩,
  REvent.colorEv 0.3 0.3 0.3 0.3,
  REvent.textureEv "lamp_top",
  REvent.materialEv "paper",
  REvent.drawEv "taperedCylinder",
  REvent.transformEv ⟨0.3, 13, 0.3⟩ 0 0 0 ⟨-2, 0.5, -17⟩,
  REvent.textureEv "lamp_bot",
  REvent.materialEv "metal",
  REvent.drawEv "cylinder",
  REvent.transformEv ⟨2, 0.5, 2⟩ 0 0 0 ⟨-2, 0, -17⟩,
  REvent.textureEv "lamp_bot",
  REvent.materialEv "metal",
  REvent.drawEv "cylinder",
  REvent.transformEv ⟨3, 1, 4⟩ 90 90 0 ⟨17.6, 12, -18⟩,
  REvent.textureEv "books",
  REvent.materialEv "fabric",
  REvent.drawEv "box",
  REvent.transformEv ⟨3, 1, 5⟩ 90 90 0 ⟨16.3, 12.5, -18⟩,
  REvent.textureEv "book2",
  REvent.materialEv "fabric",
  REvent.drawEv "box",
  REvent.transformEv ⟨3, 1, 4⟩ 90 90 0 ⟨15, 12, -18⟩,
  REvent.textureEv "books",
  REvent.materialEv "fabric",
  REvent.drawEv "box",
  REvent.transformEv ⟨3, 1, 4⟩ 90 90 0 ⟨4.2, 17, -18⟩,
  REvent.textureEv "books",
  REvent.materialEv "fabric",
  REvent.drawEv "box",
  REvent.transformEv ⟨3, 1, 5⟩ 90 90 0 ⟨5.4, 17.4, -18⟩,
  REvent.textureEv "book2",
  REvent.materialEv "fabric",
  REvent.drawEv "box",
  REvent.transformEv ⟨2.9, 1, 3.8⟩ 90 90 20 ⟨7, 17.1, -18⟩,
  REvent.textureEv "books",
  REvent.materialEv "fabric",
  REvent.drawEv "box",
  REvent.transformEv ⟨1, 1, 1⟩ 0 0 0 ⟨7, 5, -17⟩,
  REvent.textureEv "snowglobe_bot",
  REvent.materialEv "metal",
  REvent.drawEv "taperedCylinder",
  REvent.transformEv ⟨0.9, 0.9, 0.9⟩ 0 0 0 ⟨7, 6.7, -17⟩,
  REvent.textureEv "lamp_bot",
  REvent.materialEv "glass",
  REvent.drawEv "sphere"]

/-- Whether an event is a mesh draw call. -/
def isDraw : REvent → Bool
  | REvent.drawEv _ => true
  | _ => false

/-- Whether an event is a model-matrix push (SetTransformations). -/
def isTransform : REvent → Bool
  | REvent.transformEv _ _ _ _ _ => true
  | _ => false

/-- Whether an event selects texture-or-color rendering (SetShaderTexture
or SetShaderColor). -/
def isSelection : REvent → Bool
  | REvent.textureEv _ => true
  | REvent.colorEv _ _ _ _ => true
  | _ => false

/-- Whether an event is a material push (SetShaderMaterial). -/
def isMaterial : REvent → Bool
  | REvent.materialEv _ => true
  | _ => false

/-- Splits a trace into one block per draw call: each block is the list
of state events issued after the previous draw (or the start of the
trace) and before that draw; state events after the final draw, if any,
belong to no block. -/
def drawBlocks : List REvent → List REvent → List (List REvent)
  | _, [] => []
  | acc, REvent.drawEv _ :: rest => acc :: drawBlocks [] rest
  | acc, e :: rest => drawBlocks (acc ++ [e]) rest

/-- Whether the last event of the trace is a draw call (no state
mutation dangles after the final draw). -/
def endsWithDraw : List REvent → Bool
  | [] => false
  | [e] => isDraw e
  | _ :: rest => endsWithDraw rest

/-- The central render-loop discipline: every draw call is preceded,
strictly after the previous draw call, by at least one model-matrix
push, at least one texture-or-color selection and at least one material
push, and no state mutation trails after the final draw.  Since each
per-draw block consists exactly of the events between the two draws,
this is the trace form of: state is fully re-set between draws, no draw
consumes only an earlier object's state, and state for the next object
is pushed only after the current draw. -/
def stateCompleteBeforeEachDraw (tr : List REvent) : Bool :=
  (drawBlocks [] tr).all
    (fun b => b.any isTransform && b.any isSelection && b.any isMaterial)
  && endsWithDraw tr

/-- Number of texture-or-color selection events in a block. -/
def selectionCount (b : List REvent) : Nat :=
  (b.filter isSelection).length

/-- The per-object mutual-exclusion discipline as claimed: every draw
block contains at most one texture-or-color selection. -/
def atMostOneSelectionPerDraw (tr : List REvent) : Bool :=
  (drawBlocks [] tr).all (fun b => Nat.ble (selectionCount b) 1)

/-- The wood material registered by DefineObjectMaterials
(SceneManager.cpp lines 406-412). -/
def woodMaterial : OBJECT_MATERIAL :=
  { diffuseColor := ⟨0.3, 0.3, 0.3⟩,
    specularColor := ⟨0.4, 0.4, 0.4⟩,
    shininess := 40,
    tag := "wood" }

/-- A concrete stand-in for the default-constructed local
OBJECT_MATERIAL in SetShaderMaterial, whose numeric contents are
indeterminate in the source. -/
def junkMaterial : OBJECT_MATERIAL :=
  { diffuseColor := ⟨0, 0, 0⟩,
    specularColor := ⟨0, 0, 0⟩,
    shininess := 0,
    tag := "" }

/-- C1: in RenderScene, every one of the 33 draw calls is preceded —
strictly after the previous object's draw call — by a model-matrix push,
a texture-or-color selection and a material push, and no state mutation
for a further object occurs before the current object's draw (in
particular nothing trails after the final draw). -/
theorem renderScene_state_complete_before_each_draw :
    stateCompleteBeforeEachDraw renderSceneTrace = true ∧
    (drawBlocks [] renderSceneTrace).length = 33 := by
  exact ⟨by decide, by decide⟩

/-- C5 counterexample: it is not the case that at most one of
SetShaderColor and SetShaderTexture is issued per drawn object — the
lamp-shade object receives both a SetShaderColor and a SetShaderTexture
between its neighbouring draw calls. -/
theorem renderScene_selection_not_exclusive :
    atMostOneSelectionPerDraw renderSceneTrace = false := by decide

/-- C5 amended: every drawn object except the lamp shade (the 23rd draw,
block index 22) receives exactly one texture-or-color selection; the
lamp-shade block alone receives two, namely SetShaderColor(0.3,0.3,0.3,0.3)
followed by SetShaderTexture("lamp_top"), so the texture selection is
the one in effect at its draw. -/
theorem renderScene_selection_exclusive_except_lamp_shade :
    (drawBlocks [] renderSceneTrace).map selectionCount =
      List.replicate 22 1 ++ [2] ++ List.replicate 10 1 ∧
    ((drawBlocks [] renderSceneTrace).getD 22 []).filter isSelection =
      [REvent.colorEv 0.3 0.3 0.3 0.3, REvent.textureEv "lamp_top"] := by
  exact ⟨by decide, by rfl⟩

/-- C3: evaluation at the failing input.  With the non-empty registry
[woodMaterial] and the unregistered tag "stone", FindMaterial returns
true (reporting the material found) and leaves the out-parameter
untouched, because line 255 returns true unconditionally instead of the
computed bFound; the claimed (and intended) behavior is a false,
not-found result. -/
theorem findMaterial_true_on_missing_tag :
    findMaterial [woodMaterial] "stone" junkMaterial = (true, junkMaterial) := by
  rfl

/-- C2: evaluation at the failing input.  With the non-empty registry
[woodMaterial] and the unregistered tag "stone", SetShaderMaterial does
not leave the shader untouched: it pushes three material uniform writes,
carrying the never-assigned local's contents, because FindMaterial
reports success on the miss. -/
theorem setShaderMaterial_writes_on_missing_tag :
    (setShaderMaterial [woodMaterial] "stone" junkMaterial).length = 3 ∧
    setShaderMaterial [woodMaterial] "stone" junkMaterial =
      [UniformWrite.vec3Val "material.diffuseColor" junkMaterial.diffuseColor,
       UniformWrite.vec3Val "material.specularColor" junkMaterial.specularColor,
       UniformWrite.floatVal "material.shininess" junkMaterial.shininess] := by
  exact ⟨rfl, rfl⟩

/-- C4: evaluation at the failing input.  With one registered texture
whose live GL handle is 1, DestroyGLTextures issues a fresh
glGenTextures per slot instead of a delete: afterwards the old handle 1
is still live (never released), a new leaked name 2 is also live, and
the registry slot now holds the new name. -/
theorem destroyGLTextures_leaks_handles :
    destroyGLTextures ⟨2, [1]⟩ [⟨1, "leaf"⟩] = (⟨3, [1, 2]⟩, [⟨2, "leaf"⟩]) ∧
    1 ∈ (destroyGLTextures ⟨2, [1]⟩ [⟨1, "leaf"⟩]).1.liveTextures := by
  exact ⟨rfl, by decide⟩

/-- Iterated texture loading, as Prepare phases do: one CreateGLTexture
call per (decoded image, tag) pair, threading the GL context and the
registry; each call's Boolean result is discarded by the caller, exactly
as LoadSceneTextures discards bReturn. -/
def loadAll (gl : GLContext) (m_textureIDs : List TEXTURE_ID) :
    List (ImageData × String) → GLContext × List TEXTURE_ID
  | [] => (gl, m_textureIDs)
  | (image, tag) :: rest =>
    let r := createGLTexture gl m_textureIDs (some image) tag
    loadAll r.2.1 r.2.2 rest

/-- Case analysis shared by the texture-lookup proofs: scanning from any
starting index, either the tag occurs nowhere (both lookups yield -1) or
the first match sits at some offset k, FindTextureSlot yields the
starting index plus k, and FindTextureID yields the handle stored in
entry k. -/
theorem findScanCases (tag : String) :
    ∀ (entries : List TEXTURE_ID) (i : Nat),
    (findTextureSlotAux entries tag i = -1 ∧ findTextureID entries tag = -1 ∧
       ∀ e ∈ entries, e.tag ≠ tag) ∨
    (∃ k : Nat, k < entries.length ∧
       findTextureSlotAux entries tag i = ((i + k : Nat) : Int) ∧
       findTextureID entries tag = ((entries.getD k ⟨0, ""⟩).ID : Int) ∧
       (entries.getD k ⟨0, ""⟩).tag = tag ∧
       tag ∈ entries.map TEXTURE_ID.tag) := by
  intro entries
  induction entries with
  | nil =>
    intro i
    left
    exact ⟨rfl, rfl, by simp⟩
  | cons e rest ih =>
    intro i
    by_cases h : e.tag = tag
    · right
      refine ⟨0, by simp, ?_, ?_, ?_, ?_⟩
      · simp [findTextureSlotAux, h]
      · simp [findTextureID, h, List.getD]
      · simpa [List.getD] using h
      · simp [h]
    · rcases ih (i + 1) with ⟨ha, hid, hall⟩ | ⟨k, hk, ha, hid, htag, hmem⟩
      · left
        refine ⟨?_, ?_, ?_⟩
        · simpa [findTextureSlotAux, h] using ha
        · simpa [findTextureID, h] using hid
        · intro x hx
          rcases List.mem_cons.mp hx with hx | hx
          · subst hx; exact h
          · exact hall x hx
      · right
        refine ⟨k + 1, by simpa using Nat.succ_lt_succ hk, ?_, ?_, ?_, ?_⟩
        · have harith : (i + 1) + k = i + (k + 1) := by omega
          simpa [findTextureSlotAux, h, harith] using ha
        · simpa [findTextureID, h, List.getD] using hid
        · simpa [List.getD] using htag
        · simp [hmem]

/-- Tags accumulate in load order: a run of CreateGLTexture calls with
decodable 3- or 4-channel images appends exactly one registry entry per
call, tagged in call order. -/
theorem loadAll_tags (imgs : List (ImageData × String)) :
    ∀ (gl : GLContext) (entries : List TEXTURE_ID),
    (∀ p ∈ imgs, p.1.colorChannels = 3 ∨ p.1.colorChannels = 4) →
    ((loadAll gl entries imgs).2).map TEXTURE_ID.tag =
      entries.map TEXTURE_ID.tag ++ imgs.map Prod.snd := by
  induction imgs with
  | nil =>
    intro gl entries _
    simp [loadAll]
  | cons p rest ih =>
    intro gl entries h
    obtain ⟨image, tag⟩ := p
    have hp : image.colorChannels = 3 ∨ image.colorChannels = 4 :=
      h (image, tag) (by simp)
    have hstep :
        createGLTexture gl entries (some image) tag =
          (true, (glGenTexture gl).2,
            entries ++ [{ ID := (glGenTexture gl).1, tag := tag }]) := by
      simp [createGLTexture, hp]
    have := ih (glGenTexture gl).2
      (entries ++ [{ ID := (glGenTexture gl).1, tag := tag }])
      (fun q hq => h q (by simp [hq]))
    simp only [loadAll, hstep] at this ⊢
    simp [this]

/-- C6: for every image that decodes successfully but whose channel
count is neither 3 nor 4, CreateGLTexture returns false and leaves the
texture registry exactly as it was — no slot is consumed by the
rejected load. -/
theorem createGLTexture_rejects_unsupported_channels
    (gl : GLContext) (entries : List TEXTURE_ID) (image : ImageData)
    (tag : String)
    (h3 : image.colorChannels ≠ 3) (h4 : image.colorChannels ≠ 4) :
    (createGLTexture gl entries (some image) tag).1 = false ∧
    (createGLTexture gl entries (some image) tag).2.2 = entries := by
  constructor <;> simp [createGLTexture, h3, h4]

/-- C6 witness: a decoded 2x2 single-channel (grayscale) image is
rejected and the empty registry stays empty. -/
theorem createGLTexture_rejects_unsupported_channels_witness :
    (ImageData.mk 2 2 1).colorChannels ≠ 3 ∧
    (ImageData.mk 2 2 1).colorChannels ≠ 4 ∧
    ((createGLTexture ⟨1, []⟩ [] (some (ImageData.mk 2 2 1)) "gray").1 = false ∧
      (createGLTexture ⟨1, []⟩ [] (some (ImageData.mk 2 2 1)) "gray").2.2 = []) :=
  ⟨by decide, by decide,
    createGLTexture_rejects_unsupported_channels ⟨1, []⟩ [] (ImageData.mk 2 2 1)
      "gray" (by decide) (by decide)⟩

/-- C7: starting from the empty registry, a run of successful loads with
pairwise-distinct tags (all within the 16-unit capacity) registers the
n-th load at slot index n-1 — entry tags in load order — and
FindTextureSlot answers a slot in [0, count) for every loaded tag and -1
for every other tag. -/
theorem texture_slots_dense_in_load_order
    (gl : GLContext) (imgs : List (ImageData × String))
    (hok : ∀ p ∈ imgs, p.1.colorChannels = 3 ∨ p.1.colorChannels = 4)
    (_hdist : (imgs.map Prod.snd).Nodup)
    (_hcap : imgs.length ≤ 16) :
    ((loadAll gl [] imgs).2).map TEXTURE_ID.tag = imgs.map Prod.snd ∧
    ((loadAll gl [] imgs).2).length = imgs.length ∧
    (∀ tag, tag ∈ imgs.map Prod.snd →
       0 ≤ findTextureSlot (loadAll gl [] imgs).2 tag ∧
       findTextureSlot (loadAll gl [] imgs).2 tag <
         (((loadAll gl [] imgs).2).length : Int)) ∧
    (∀ tag, tag ∉ imgs.map Prod.snd →
       findTextureSlot (loadAll gl [] imgs).2 tag = -1) := by
  have htags : ((loadAll gl [] imgs).2).map TEXTURE_ID.tag = imgs.map Prod.snd := by
    simpa using loadAll_tags imgs gl [] hok
  have hlen : ((loadAll gl [] imgs).2).length = imgs.length := by
    have := congrArg List.length htags
    simpa using this
  refine ⟨htags, hlen, ?_, ?_⟩
  · intro tag htag
    rcases findScanCases tag ((loadAll gl [] imgs).2) 0 with
      ⟨_, _, hall⟩ | ⟨k, hk, ha, _, _, _⟩
    · exfalso
      rw [← htags] at htag
      obtain ⟨e, he, hetag⟩ := List.mem_map.mp htag
      exact hall e he hetag
    · unfold findTextureSlot
      rw [ha]
      constructor
      · omega
      · omega
  · intro tag htag
    rcases findScanCases tag ((loadAll gl [] imgs).2) 0 with
      ⟨ha, _, _⟩ | ⟨_, _, _, _, _, hmem⟩
    · exact ha
    · exact absurd (htags ▸ hmem) htag

/-- The two demonstration loads used by the C7 witness: a 3-channel and
a 4-channel image with distinct tags. -/
def demoImgs : List (ImageData × String) :=
  [(ImageData.mk 2 2 3, "leaf"), (ImageData.mk 4 4 4, "vase")]

/-- C7 witness: loading the two demonstration images from the empty
registry tags slot 0 "leaf" and slot 1 "vase", both found in [0, 2),
while an unloaded tag is reported -1. -/
theorem texture_slots_dense_in_load_order_witness :
    (∀ p ∈ demoImgs, p.1.colorChannels = 3 ∨ p.1.colorChannels = 4) ∧
    (demoImgs.map Prod.snd).Nodup ∧
    demoImgs.length ≤ 16 ∧
    (((loadAll ⟨1, []⟩ [] demoImgs).2).map TEXTURE_ID.tag = demoImgs.map Prod.snd ∧
     ((loadAll ⟨1, []⟩ [] demoImgs).2).length = demoImgs.length ∧
     (∀ tag, tag ∈ demoImgs.map Prod.snd →
        0 ≤ findTextureSlot (loadAll ⟨1, []⟩ [] demoImgs).2 tag ∧
        findTextureSlot (loadAll ⟨1, []⟩ [] demoImgs).2 tag <
          ((((loadAll ⟨1, []⟩ [] demoImgs).2)).length : Int)) ∧
     (∀ tag, tag ∉ demoImgs.map Prod.snd →
        findTextureSlot (loadAll ⟨1, []⟩ [] demoImgs).2 tag = -1)) :=
  ⟨by decide, by decide, by decide,
    texture_slots_dense_in_load_order ⟨1, []⟩ demoImgs (by decide) (by decide)
      (by decide)⟩

/-- C9: the two tag lookups are coherent, for every registry and tag:
FindTextureID answers -1 exactly when FindTextureSlot answers -1, and
whenever FindTextureSlot answers a slot s it is in range and
FindTextureID answers the handle stored in entry s. -/
theorem findTextureID_findTextureSlot_coherent
    (entries : List TEXTURE_ID) (tag : String) :
    (findTextureID entries tag = -1 ↔ findTextureSlot entries tag = -1) ∧
    (∀ s : Nat, findTextureSlot entries tag = (s : Int) →
       s < entries.length ∧
       findTextureID entries tag = ((entries.getD s ⟨0, ""⟩).ID : Int)) := by
  rcases findScanCases tag entries 0 with
    ⟨ha, hid, _⟩ | ⟨k, hk, ha, hid, _, _⟩
  · unfold findTextureSlot
    constructor
    · rw [ha, hid]
    · intro s hs
      rw [ha] at hs
      omega
  · unfold findTextureSlot
    constructor
    · rw [ha, hid]
      constructor
      · intro h; exact absurd h (by omega)
      · intro h; exact absurd h (by omega)
    · intro s hs
      rw [ha] at hs
      have hks : k = s := by omega
      subst hks
      exact ⟨hk, hid⟩

/-- A two-entry registry used by the C9 witness. -/
def texPair : List TEXTURE_ID := [⟨5, "leaf"⟩, ⟨7, "vase"⟩]

/-- C9 witness: on the two-entry registry, FindTextureSlot resolves
"vase" to slot 1, which is in range, and FindTextureID returns the
handle stored in entry 1. -/
theorem findTextureID_findTextureSlot_coherent_witness :
    findTextureSlot texPair "vase" = ((1 : Nat) : Int) ∧
    (1 < texPair.length ∧
      findTextureID texPair "vase" = ((texPair.getD 1 ⟨0, ""⟩).ID : Int)) :=
  ⟨by decide, (findTextureID_findTextureSlot_coherent texPair "vase").2 1 (by decide)⟩

/-- C8: for every degree-to-radian conversion, cosine and sine routine,
and all transform parameters, the attached-shader run of
SetTransformations emits exactly one uniform write, to the model-matrix
uniform, and the written matrix is the specification's composition
T * Rz * Ry * Rx * S with each angle converted from degrees to radians
before its axis rotation matrix is built. -/
theorem setTransformations_writes_composeSpec
    (degToRad cosF sinF : ℚ → ℚ) (scaleXYZ : Vec3)
    (XrotationDegrees YrotationDegrees ZrotationDegrees : ℚ)
    (positionXYZ : Vec3) :
    setTransformations degToRad cosF sinF true scaleXYZ
        XrotationDegrees YrotationDegrees ZrotationDegrees positionXYZ =
      [UniformWrite.mat4Val g_ModelName
        (composeSpec degToRad cosF sinF scaleXYZ
          XrotationDegrees YrotationDegrees ZrotationDegrees positionXYZ)] :=
  rfl

/-- C10: with no shader attached, each of SetTransformations,
SetShaderColor, SetShaderTexture and SetTextureUVScale performs no
shader uniform write at all, for all argument values. -/
theorem dispatcher_noop_without_shader
    (degToRad cosF sinF : ℚ → ℚ) (scaleXYZ : Vec3)
    (XrotationDegrees YrotationDegrees ZrotationDegrees : ℚ)
    (positionXYZ : Vec3) (r g b a : ℚ)
    (entries : List TEXTURE_ID) (textureTag : String) (u v : ℚ) :
    setTransformations degToRad cosF sinF false scaleXYZ
        XrotationDegrees YrotationDegrees ZrotationDegrees positionXYZ = [] ∧
    setShaderColor false r g b a = [] ∧
    setShaderTexture false entries textureTag = [] ∧
    setTextureUVScale false u v = [] :=
  ⟨rfl, rfl, rfl, rfl⟩

end SceneMgr
